import Mathlib

/-!
Verification development for the PayPerie x402 payment system.

We shallowly embed the components the verified properties concern:

* `PayPerieVault.sol` — on-chain settlement, tiered vesting and claims.
  `uint256` values are modelled as `Nat` (Solidity 0.8 reverts on overflow,
  so every non-reverting execution computes exact integer arithmetic);
  `require` failures (reverts) are modelled as `Except.error`, with the
  pre-state preserved by the caller (revert semantics).  External token
  transfers are effects outside the ledger state and are not part of the
  embedded state.

* the facilitator's `executor.ts` pre-submission check sequence and the
  `userPolicy.ts` / `policyValidator.ts` / payment-controller store logic.
  TypeScript `bigint` is modelled as `Int`, millisecond timestamps as `Int`
  matching `Date.now()`, and the in-memory `Map` of user policies as an
  association list with first-match lookup and in-place replace.
-/

/-! ## Vault ledger (contracts/PayPerieVault.sol) -/

inductive AuthorTier
  | Level0
  | Level1
  | Certified
deriving DecidableEq, Repr

structure AuthorProfile where
  tier : AuthorTier
  availableBalance : Nat
  lockedBalance : Nat
  unlockTime : Nat
deriving DecidableEq, Repr

def BPS_DENOMINATOR : Nat := 10000

/-- Solidity `_tierConfig`: per-tier `(immediateBps, lockPeriod)`;
lock periods in seconds (`15 days`, `7 days`, `1 days`). -/
def tierConfig : AuthorTier → Nat × Nat
  | .Level0 => (1000, 1296000)
  | .Level1 => (5000, 604800)
  | .Certified => (9000, 86400)

/-- The `PaymentSettled(author, amount, fee, lockedAmount)` event. -/
structure PaymentSettledEvent where
  author : Nat
  amount : Nat
  fee : Nat
  lockedAmount : Nat
deriving DecidableEq, Repr

/-- Solidity `settlePayment(author, amount)` acting on the author's profile at
`timestamp` (= `block.timestamp`), with the contract-level `protocolFeeBps`.
Addresses are `Nat`, `0` being the zero address.  Returns the updated
profile and the emitted event, or the revert message. -/
def settlePayment (protocolFeeBps : Nat) (author : Nat) (profile : AuthorProfile)
    (amount : Nat) (timestamp : Nat) : Except String (AuthorProfile × PaymentSettledEvent) :=
  if author = 0 then .error "Invalid author"
  else if amount = 0 then .error "Amount must be > 0"
  else
    let fee := amount * protocolFeeBps / BPS_DENOMINATOR
    let netIncome := amount - fee
    let cfg := tierConfig profile.tier
    let toRelease := netIncome * cfg.1 / BPS_DENOMINATOR
    let toLock := netIncome - toRelease
    let profile1 : AuthorProfile :=
      { profile with
        availableBalance := profile.availableBalance + toRelease
        lockedBalance := profile.lockedBalance + toLock
        unlockTime := if toLock > 0 then timestamp + cfg.2 else profile.unlockTime }
    .ok (profile1, ⟨author, amount, fee, toLock⟩)

/-- Solidity `setAuthorTier(author, tier)` (admin-only): only the tier field changes. -/
def setAuthorTier (author : Nat) (profile : AuthorProfile) (tier : Nat) :
    Except String AuthorProfile :=
  if author = 0 then .error "Invalid author"
  else if tier ≤ 2 then
    .ok { profile with
          tier := if tier = 0 then .Level0 else if tier = 1 then .Level1 else .Certified }
  else .error "Invalid tier"

/-- Solidity `claimRevenue()` acting on the caller's profile at `timestamp`:
returns the updated profile and the payout, or the revert message. -/
def claimRevenue (profile : AuthorProfile) (timestamp : Nat) :
    Except String (AuthorProfile × Nat) :=
  let p1 :=
    if profile.lockedBalance > 0 ∧ timestamp ≥ profile.unlockTime then
      { profile with
        availableBalance := profile.availableBalance + profile.lockedBalance
        lockedBalance := 0 }
    else profile
  let payout := p1.availableBalance
  if payout = 0 then .error "Nothing to claim"
  else .ok ({ p1 with availableBalance := 0 }, payout)

/-- The function `claimRevenue` as a transaction: on revert the EVM rolls back all
writes, so the observable post-state is the pre-state. -/
def claimRevenueTx (profile : AuthorProfile) (timestamp : Nat) :
    AuthorProfile × Except String Nat :=
  match claimRevenue profile timestamp with
  | .error e => (profile, .error e)
  | .ok (p1, payout) => (p1, .ok payout)

/-! ## Facilitator executor pre-submission checks (services/executor.ts) -/

inductive ExecErrorCode
  | INVALID_SIGNATURE
  | EXPIRED
  | INSUFFICIENT_BALANCE
  | TRANSACTION_FAILED
deriving DecidableEq, Repr

inductive CheckOutcome
  | err (code : ExecErrorCode)
  | proceed
deriving DecidableEq, Repr

/-- Outcome of the check phase of `executePayment` together with the number
of `balanceOf` and `authorizationState` reads it performed. -/
structure CheckTrace where
  outcome : CheckOutcome
  balanceLookups : Nat
  nonceLookups : Nat
deriving DecidableEq, Repr

/-- Environment a single `executePayment` call observes: the result of
`verifySignature`, the clock, the authorization window and amount, the
`balanceOf` answer and the `authorizationState` answer (which may throw,
modelled as `Except.error ()`). -/
structure ExecEnv where
  sigValid : Bool
  now : Nat
  validAfter : Nat
  validBefore : Nat
  balance : Nat
  amount : Nat
  nonceState : Except Unit Bool

/-- TS `PaymentExecutor.isNonceUsed`: a thrown `authorizationState` read is
caught and reported as `false`. -/
def isNonceUsed (st : Except Unit Bool) : Bool :=
  match st with
  | .ok b => b
  | .error _ => false

/-- The check sequence at the top of `PaymentExecutor.executePayment`,
in source order: signature, validity window, balance, nonce; `proceed`
means the call goes on to submit `transferWithAuthorization`. -/
def executePaymentChecks (e : ExecEnv) : CheckTrace :=
  if e.sigValid = false then ⟨.err .INVALID_SIGNATURE, 0, 0⟩
  else if e.now < e.validAfter ∨ e.now > e.validBefore then ⟨.err .EXPIRED, 0, 0⟩
  else if e.balance < e.amount then ⟨.err .INSUFFICIENT_BALANCE, 1, 0⟩
  else if isNonceUsed e.nonceState then ⟨.err .TRANSACTION_FAILED, 1, 1⟩
  else ⟨.proceed, 1, 1⟩

/-! ## User policy store and policy validator (store/userPolicy.ts,
services/policyValidator.ts, controllers payment controller) -/

structure UserPolicy where
  userAddress : String
  maxTransactionAmount : Int
  dailySpendingLimit : Int
  spentToday : Int
  lastResetTimestamp : Int
  authorizedMerchants : List String
  authorizedDomains : List String
  autoPayEnabled : Bool
deriving DecidableEq, Repr

abbrev PolicyStore := List (String × UserPolicy)

/-- JS `Map.get` with first-match semantics. -/
def storeGet : PolicyStore → String → Option UserPolicy
  | [], _ => none
  | kv :: rest, key => if kv.1 = key then some kv.2 else storeGet rest key

/-- JS `Map.set`: replace the binding if present, else append. -/
def storeSet : PolicyStore → String → UserPolicy → PolicyStore
  | [], key, p => [(key, p)]
  | kv :: rest, key, p => if kv.1 = key then (key, p) :: rest else kv :: storeSet rest key p

def ONE_DAY_MS : Int := 24 * 60 * 60 * 1000

def DEFAULT_MAX_TRANSACTION_AMOUNT : Int := 100000000

def DEFAULT_DAILY_SPENDING_LIMIT : Int := 500000000

/-- JS `String.prototype.toLowerCase` (ASCII case folding, as used on the
hex addresses and domains in this code). -/
def lowerAscii (s : String) : String := ⟨s.data.map Char.toLower⟩

/-- The policy created lazily on first lookup (`DEFAULTS` in constants). -/
def defaultPolicy (userAddress : String) (now : Int) : UserPolicy where
  userAddress := userAddress
  maxTransactionAmount := DEFAULT_MAX_TRANSACTION_AMOUNT
  dailySpendingLimit := DEFAULT_DAILY_SPENDING_LIMIT
  spentToday := 0
  lastResetTimestamp := now
  authorizedMerchants := []
  authorizedDomains := []
  autoPayEnabled := true

/-- TS `getUserPolicy`: lazily inserts the default policy on first lookup.
Returns the policy together with the (possibly extended) store. -/
def getUserPolicy (s : PolicyStore) (userAddress : String) (now : Int) :
    UserPolicy × PolicyStore :=
  match storeGet s (lowerAscii userAddress) with
  | some p => (p, s)
  | none => (defaultPolicy userAddress now,
             storeSet s (lowerAscii userAddress) (defaultPolicy userAddress now))

/-- TS `isMerchantAuthorized`: allow-listed address, allow-listed domain, or
the auto-pay fallback. -/
def isMerchantAuthorized (s : PolicyStore) (userAddress merchantAddress : String)
    (merchantDomain : Option String) (now : Int) : Bool × PolicyStore :=
  let r := getUserPolicy s userAddress now
  (if r.1.authorizedMerchants.contains (lowerAscii merchantAddress) then true
   else if (match merchantDomain with
            | some d => r.1.authorizedDomains.contains (lowerAscii d)
            | none => false) then true
   else r.1.autoPayEnabled, r.2)

/-- TS `getRemainingDailyAllowance`. -/
def getRemainingDailyAllowance (s : PolicyStore) (userAddress : String) (now : Int) :
    Int × PolicyStore :=
  let r := getUserPolicy s userAddress now
  (if now - r.1.lastResetTimestamp > ONE_DAY_MS then r.1.dailySpendingLimit
   else if r.1.dailySpendingLimit - r.1.spentToday > 0 then
     r.1.dailySpendingLimit - r.1.spentToday
   else 0, r.2)

/-- TS `recordSpending`: lazy daily reset, then add the amount. -/
def recordSpending (s : PolicyStore) (userAddress : String) (amount : Int) (now : Int) :
    PolicyStore :=
  let r := getUserPolicy s userAddress now
  let p1 := if now - r.1.lastResetTimestamp > ONE_DAY_MS
            then { r.1 with spentToday := 0, lastResetTimestamp := now }
            else r.1
  storeSet r.2 (lowerAscii userAddress) { p1 with spentToday := p1.spentToday + amount }

structure Challenge where
  merchantAddress : String
  merchantDomain : Option String
  amount : Int
deriving DecidableEq, Repr

structure Authorization where
  fromAddr : String
  toAddr : String
  value : Int
deriving DecidableEq, Repr

structure PaymentRequest where
  userAddress : String
  challenge : Challenge
  authorization : Authorization
deriving DecidableEq, Repr

inductive PolicyCheckResult
  | allowed (remainingDaily : Int)
  | denied (reason : String)
deriving DecidableEq, Repr

/-- TS `validatePaymentRequest` from `policyValidator.ts`, with the store
threaded explicitly (the merchant-whitelist check in the source is
logging only and reads a separate read-only store). -/
def validatePaymentRequest (req : PaymentRequest) (s : PolicyStore) (now : Int) :
    PolicyCheckResult × PolicyStore :=
  let amount := req.challenge.amount
  let auth := isMerchantAuthorized s req.userAddress req.challenge.merchantAddress
    req.challenge.merchantDomain now
  if auth.1 = false then (.denied "Merchant not authorized by user", auth.2)
  else
    let rp := getUserPolicy auth.2 req.userAddress now
    if amount > rp.1.maxTransactionAmount then (.denied "Exceeds limit", rp.2)
    else
      let rd := getRemainingDailyAllowance rp.2 req.userAddress now
      if amount > rd.1 then (.denied "Exceeds daily limit", rd.2)
      else if lowerAscii req.authorization.fromAddr ≠ lowerAscii req.userAddress then
        (.denied "From address mismatch", rd.2)
      else if lowerAscii req.authorization.toAddr ≠
          lowerAscii req.challenge.merchantAddress then
        (.denied "Destination mismatch", rd.2)
      else if req.authorization.value ≠ amount then (.denied "Amount mismatch", rd.2)
      else (.allowed (rd.1 - amount), rd.2)

/-- The payment controller `executePayment`: policy validation, then the
on-chain execution (whose success flag is `settlementSucceeded` here), and
`recordSpending` only on success.  Returns the HTTP status and the store. -/
def facilitatorExecutePayment (req : PaymentRequest) (s : PolicyStore) (now : Int)
    (settlementSucceeded : Bool) : Nat × PolicyStore :=
  let v := validatePaymentRequest req s now
  match v.1 with
  | .denied _ => (403, v.2)
  | .allowed _ =>
    if settlementSucceeded then
      (200, recordSpending v.2 req.userAddress req.challenge.amount now)
    else (400, v.2)

/-! ## Helper lemmas -/

lemma tierConfig_bps_le (t : AuthorTier) : (tierConfig t).1 ≤ 10000 := by
  cases t <;> decide

lemma mul_bps_div_le (n bps : Nat) (h : bps ≤ 10000) : n * bps / 10000 ≤ n := by
  calc n * bps / 10000 ≤ n * 10000 / 10000 :=
        Nat.div_le_div_right (Nat.mul_le_mul_left n h)
    _ = n := Nat.mul_div_cancel n (by norm_num)

lemma settlePayment_ok_elim (protocolFeeBps author : Nat) (profile : AuthorProfile)
    (amount timestamp : Nat) (p' : AuthorProfile) (ev : PaymentSettledEvent)
    (hok : settlePayment protocolFeeBps author profile amount timestamp = .ok (p', ev)) :
    ev = ⟨author, amount, amount * protocolFeeBps / 10000,
          (amount - amount * protocolFeeBps / 10000) -
            (amount - amount * protocolFeeBps / 10000) * (tierConfig profile.tier).1 / 10000⟩ ∧
    p' = { profile with
           availableBalance := profile.availableBalance +
             (amount - amount * protocolFeeBps / 10000) * (tierConfig profile.tier).1 / 10000
           lockedBalance := profile.lockedBalance +
             ((amount - amount * protocolFeeBps / 10000) -
               (amount - amount * protocolFeeBps / 10000) * (tierConfig profile.tier).1 / 10000)
           unlockTime :=
             if (amount - amount * protocolFeeBps / 10000) -
                 (amount - amount * protocolFeeBps / 10000) * (tierConfig profile.tier).1 / 10000
                 > 0
             then timestamp + (tierConfig profile.tier).2
             else profile.unlockTime } := by
  simp only [settlePayment, BPS_DENOMINATOR] at hok
  split at hok
  · exact absurd hok (by simp)
  · split at hok
    · exact absurd hok (by simp)
    · simp only [Except.ok.injEq, Prod.mk.injEq] at hok
      obtain ⟨hp, hev⟩ := hok
      exact ⟨hev.symm, hp.symm⟩

lemma storeGet_storeSet_self (s : PolicyStore) (key : String) (p : UserPolicy) :
    storeGet (storeSet s key p) key = some p := by
  induction s with
  | nil => simp [storeSet, storeGet]
  | cons kv rest ih =>
    by_cases h : kv.1 = key
    · simp [storeSet, storeGet, h]
    · simp [storeSet, storeGet, h, ih]

lemma storeGet_storeSet_ne (s : PolicyStore) (key a : String) (p : UserPolicy)
    (h : key ≠ a) : storeGet (storeSet s key p) a = storeGet s a := by
  induction s with
  | nil => simp [storeSet, storeGet, h]
  | cons kv rest ih =>
    by_cases hk : kv.1 = key
    · simp [storeSet, storeGet, hk, h]
    · simp [storeSet, storeGet, hk, ih]

lemma getUserPolicy_preserves (s : PolicyStore) (addr : String) (now : Int)
    (a : String) (p : UserPolicy) (h : storeGet s a = some p) :
    storeGet ((getUserPolicy s addr now).2) a = some p := by
  cases hs : storeGet s (lowerAscii addr) with
  | some q => simpa [getUserPolicy, hs] using h
  | none =>
    have hne : lowerAscii addr ≠ a := by
      intro he
      rw [he, h] at hs
      cases hs
    simp [getUserPolicy, hs, storeGet_storeSet_ne _ _ _ _ hne, h]

lemma validatePaymentRequest_preserves (req : PaymentRequest) (s : PolicyStore) (now : Int)
    (a : String) (p : UserPolicy) (h : storeGet s a = some p) :
    storeGet ((validatePaymentRequest req s now).2) a = some p := by
  have h1 := getUserPolicy_preserves s req.userAddress now a p h
  have h2 := getUserPolicy_preserves ((getUserPolicy s req.userAddress now).2)
    req.userAddress now a p h1
  have h3 := getUserPolicy_preserves
    ((getUserPolicy ((getUserPolicy s req.userAddress now).2) req.userAddress now).2)
    req.userAddress now a p h2
  unfold validatePaymentRequest
  dsimp only
  split
  · exact h1
  · split
    · exact h2
    · split
      · exact h3
      · split
        · exact h3
        · split
          · exact h3
          · split
            · exact h3
            · exact h3

lemma facilitatorExecutePayment_fail_store (req : PaymentRequest) (s : PolicyStore)
    (now : Int) :
    (facilitatorExecutePayment req s now false).2 = (validatePaymentRequest req s now).2 := by
  unfold facilitatorExecutePayment
  dsimp only
  cases h : (validatePaymentRequest req s now).1 <;> simp [h]

/-! ## Claim theorems -/

/-- Claim C1: for every amount and every `protocolFeeBps ∈ [0,10000]`,
`settlePayment` computes `fee = floor(amount * protocolFeeBps / 10000)` and
`netIncome = amount - fee` with `fee + netIncome = amount`, and for the
recipient's tier configuration `(bps, lock)` it computes
`toRelease = floor(netIncome * bps / 10000)` and `toLock = netIncome - toRelease`
with `toRelease + toLock = netIncome`, crediting `toRelease` to
`availableBalance` and `toLock` to `lockedBalance`. -/
theorem settlePayment_fee_and_tier_split (protocolFeeBps amount : Nat)
    (profile : AuthorProfile) (hbps : protocolFeeBps ≤ 10000) :
    amount * protocolFeeBps / 10000 + (amount - amount * protocolFeeBps / 10000) = amount ∧
    (amount - amount * protocolFeeBps / 10000) * (tierConfig profile.tier).1 / 10000 +
      ((amount - amount * protocolFeeBps / 10000) -
        (amount - amount * protocolFeeBps / 10000) * (tierConfig profile.tier).1 / 10000) =
      amount - amount * protocolFeeBps / 10000 ∧
    ∀ author timestamp p' ev,
      settlePayment protocolFeeBps author profile amount timestamp = .ok (p', ev) →
      ev.fee = amount * protocolFeeBps / 10000 ∧
      p'.availableBalance = profile.availableBalance +
        (amount - ev.fee) * (tierConfig profile.tier).1 / 10000 ∧
      p'.lockedBalance = profile.lockedBalance +
        ((amount - ev.fee) - (amount - ev.fee) * (tierConfig profile.tier).1 / 10000) ∧
      ev.lockedAmount =
        (amount - ev.fee) - (amount - ev.fee) * (tierConfig profile.tier).1 / 10000 := by
  have h1 : amount * protocolFeeBps / 10000 ≤ amount := mul_bps_div_le _ _ hbps
  have h2 : (amount - amount * protocolFeeBps / 10000) * (tierConfig profile.tier).1 / 10000 ≤
      amount - amount * protocolFeeBps / 10000 :=
    mul_bps_div_le _ _ (tierConfig_bps_le _)
  refine ⟨by omega, by omega, ?_⟩
  intro author timestamp p' ev hok
  obtain ⟨hev, hp⟩ := settlePayment_ok_elim _ _ _ _ _ _ _ hok
  subst hev
  subst hp
  exact ⟨rfl, rfl, rfl, rfl⟩

/-- Witness for C1 at `protocolFeeBps = 100`, `amount = 1000000`, tier Level1. -/
theorem settlePayment_fee_and_tier_split_witness :
    (10000 : Nat) = 1000000 * 100 / 10000 ∧
    (495000 : Nat) = 0 + (1000000 - 10000) * (tierConfig AuthorTier.Level1).1 / 10000 ∧
    (495000 : Nat) = 0 +
      ((1000000 - 10000) - (1000000 - 10000) * (tierConfig AuthorTier.Level1).1 / 10000) ∧
    (495000 : Nat) =
      (1000000 - 10000) - (1000000 - 10000) * (tierConfig AuthorTier.Level1).1 / 10000 :=
  (settlePayment_fee_and_tier_split 100 1000000 ⟨AuthorTier.Level1, 0, 0, 0⟩
      (by norm_num)).2.2 1 0
    ⟨AuthorTier.Level1, 495000, 495000, 604800⟩ ⟨1, 1000000, 10000, 495000⟩ rfl

/-- Claim C2: a claim strictly before `unlockTime` pays out and zeroes only
the pre-existing `availableBalance`, leaving `lockedBalance` and `unlockTime`
untouched; a claim at/after `unlockTime` with `lockedBalance > 0` pays out
`availableBalance + lockedBalance` in one call and zeroes both balances
(the whole locked tranche vests at once). -/
theorem claimRevenue_all_or_nothing (profile : AuthorProfile) (timestamp : Nat) :
    (timestamp < profile.unlockTime → 0 < profile.availableBalance →
       claimRevenue profile timestamp =
         .ok ({ profile with availableBalance := 0 }, profile.availableBalance)) ∧
    (profile.unlockTime ≤ timestamp → 0 < profile.lockedBalance →
       claimRevenue profile timestamp =
         .ok ({ profile with availableBalance := 0, lockedBalance := 0 },
           profile.availableBalance + profile.lockedBalance)) := by
  constructor
  · intro ht ha
    have hc : ¬(profile.lockedBalance > 0 ∧ timestamp ≥ profile.unlockTime) := by omega
    have ha' : ¬(profile.availableBalance = 0) := by omega
    simp [claimRevenue, hc, ha']
  · intro ht hl
    have hc : profile.lockedBalance > 0 ∧ timestamp ≥ profile.unlockTime := ⟨hl, ht⟩
    have ha' : ¬(profile.availableBalance + profile.lockedBalance = 0) := by omega
    simp [claimRevenue, hc, ha']

/-- Witness for C2: profile with 5 available, 7 locked, unlock time 100,
claimed at time 0 and at time 100. -/
theorem claimRevenue_all_or_nothing_witness :
    claimRevenue ⟨AuthorTier.Level0, 5, 7, 100⟩ 0 =
      .ok (⟨AuthorTier.Level0, 0, 7, 100⟩, 5) ∧
    claimRevenue ⟨AuthorTier.Level0, 5, 7, 100⟩ 100 =
      .ok (⟨AuthorTier.Level0, 0, 0, 100⟩, 12) :=
  ⟨(claimRevenue_all_or_nothing ⟨AuthorTier.Level0, 5, 7, 100⟩ 0).1
      (by norm_num) (by norm_num),
   (claimRevenue_all_or_nothing ⟨AuthorTier.Level0, 5, 7, 100⟩ 100).2
      (by norm_num) (by norm_num)⟩

/-- Counterexample to C3 as stated: a Tier0 settlement at time 0 sets
`unlockTime = 1296000` (15 days); the admin then raises the author to
Certified; a second settlement at time 1 overwrites `unlockTime` with
`1 + 86400 = 86401 < 1296000`, so a `settlePayment` call moved the
recipient's `unlockTime` backward. -/
theorem settle_unlockTime_decrease_cex :
    settlePayment 100 1 ⟨AuthorTier.Level0, 0, 0, 0⟩ 10000 0 =
      .ok (⟨AuthorTier.Level0, 990, 8910, 1296000⟩, ⟨1, 10000, 100, 8910⟩) ∧
    setAuthorTier 1 ⟨AuthorTier.Level0, 990, 8910, 1296000⟩ 2 =
      .ok ⟨AuthorTier.Certified, 990, 8910, 1296000⟩ ∧
    settlePayment 100 1 ⟨AuthorTier.Certified, 990, 8910, 1296000⟩ 10000 1 =
      .ok (⟨AuthorTier.Certified, 9900, 9900, 86401⟩, ⟨1, 10000, 100, 990⟩) ∧
    86401 < 1296000 :=
  ⟨rfl, rfl, rfl, by norm_num⟩

/-- Claim C3 (amended): if the recipient's current `unlockTime` is no later
than `timestamp + lockPeriod` of the recipient's *current* tier — which
holds whenever `unlockTime` was set by an earlier settlement at the same
tier and block timestamps are nondecreasing — then `settlePayment` never
decreases `unlockTime`.  (With an admin tier change to a shorter lock
between settlements the bound can fail and `unlockTime` can move backward,
as the counterexample shows.) -/
theorem settle_unlockTime_monotone_same_tier (protocolFeeBps author amount timestamp : Nat)
    (profile p' : AuthorProfile) (ev : PaymentSettledEvent)
    (hok : settlePayment protocolFeeBps author profile amount timestamp = .ok (p', ev))
    (ht : profile.unlockTime ≤ timestamp + (tierConfig profile.tier).2) :
    profile.unlockTime ≤ p'.unlockTime := by
  obtain ⟨-, hp⟩ := settlePayment_ok_elim _ _ _ _ _ _ _ hok
  subst hp
  dsimp only
  split
  · exact ht
  · exact le_refl _

/-- Witness for the amended C3: same-tier resettlement at time 0. -/
theorem settle_unlockTime_monotone_same_tier_witness :
    (⟨AuthorTier.Level0, 0, 0, 1296000⟩ : AuthorProfile).unlockTime ≤
      (⟨AuthorTier.Level0, 990, 8910, 1296000⟩ : AuthorProfile).unlockTime :=
  settle_unlockTime_monotone_same_tier 100 1 10000 0
    ⟨AuthorTier.Level0, 0, 0, 1296000⟩ ⟨AuthorTier.Level0, 990, 8910, 1296000⟩
    ⟨1, 10000, 100, 8910⟩ rfl (by decide)

/-- Claim C6: `claimRevenue` with both balances zero reverts with
"Nothing to claim", and by revert semantics the caller's profile (tier,
balances, unlock time) is unchanged. -/
theorem claimRevenue_nothing_to_claim (profile : AuthorProfile) (timestamp : Nat)
    (ha : profile.availableBalance = 0) (hl : profile.lockedBalance = 0) :
    claimRevenueTx profile timestamp = (profile, .error "Nothing to claim") := by
  have hc : ¬(profile.lockedBalance > 0 ∧ timestamp ≥ profile.unlockTime) := by omega
  simp [claimRevenueTx, claimRevenue, hc, ha]

/-- Witness for C6. -/
theorem claimRevenue_nothing_to_claim_witness :
    claimRevenueTx ⟨AuthorTier.Level1, 0, 0, 42⟩ 7 =
      (⟨AuthorTier.Level1, 0, 0, 42⟩, .error "Nothing to claim") :=
  claimRevenue_nothing_to_claim ⟨AuthorTier.Level1, 0, 0, 42⟩ 7 rfl rfl

/-- Claim C9: with `protocolFeeBps = 100`, settling 1000000000 base units to
a Level1 recipient gives fee 10000000, net 990000000, released 495000000,
locked 495000000, event `(recipient, 1000000000, 10000000, 495000000)`; the
same settlement to a Level0 recipient releases 99000000 and locks 891000000
for 15 days; and the tier table is Level0 = (1000 bps, 15 days),
Level1 = (5000 bps, 7 days), Certified = (9000 bps, 1 day). -/
theorem settle_e2e_numbers :
    settlePayment 100 1 ⟨AuthorTier.Level1, 0, 0, 0⟩ 1000000000 0 =
      .ok (⟨AuthorTier.Level1, 495000000, 495000000, 604800⟩,
        ⟨1, 1000000000, 10000000, 495000000⟩) ∧
    settlePayment 100 1 ⟨AuthorTier.Level0, 0, 0, 0⟩ 1000000000 0 =
      .ok (⟨AuthorTier.Level0, 99000000, 891000000, 1296000⟩,
        ⟨1, 1000000000, 10000000, 891000000⟩) ∧
    tierConfig AuthorTier.Level0 = (1000, 15 * 86400) ∧
    tierConfig AuthorTier.Level1 = (5000, 7 * 86400) ∧
    tierConfig AuthorTier.Certified = (9000, 1 * 86400) :=
  ⟨rfl, rfl, rfl, rfl, rfl⟩

/-- Counterexample to C4 as stated: for a request whose evaluation time 200
lies outside `[0, 100]` but whose signature is invalid, `executePayment`
returns `INVALID_SIGNATURE`, not `EXPIRED` — the signature check runs
before the validity-window check, contradicting the claimed order and the
"regardless of whether the signature is valid" part. -/
theorem executor_expired_not_first_cex :
    (200 : Nat) > 100 ∧
    executePaymentChecks ⟨false, 200, 0, 100, 0, 0, .ok false⟩ =
      ⟨.err .INVALID_SIGNATURE, 0, 0⟩ ∧
    (executePaymentChecks ⟨false, 200, 0, 100, 0, 0, .ok false⟩).outcome ≠
      .err .EXPIRED :=
  ⟨by norm_num, rfl, by decide⟩

/-- Claim C4 (amended): the validator enforces its checks in source order
signature (`INVALID_SIGNATURE`) first, then validity window (`EXPIRED`),
then balance (`INSUFFICIENT_BALANCE`), then nonce (`TRANSACTION_FAILED`);
for every request with a *valid* signature whose evaluation time lies
outside `[validAfter, validBefore]`, the result is `EXPIRED` with no
balance lookup and no nonce lookup performed. -/
theorem executor_check_order (e : ExecEnv) :
    (e.sigValid = false → executePaymentChecks e = ⟨.err .INVALID_SIGNATURE, 0, 0⟩) ∧
    (e.sigValid = true → (e.now < e.validAfter ∨ e.now > e.validBefore) →
       executePaymentChecks e = ⟨.err .EXPIRED, 0, 0⟩) ∧
    (e.sigValid = true → e.validAfter ≤ e.now → e.now ≤ e.validBefore →
       e.balance < e.amount →
       executePaymentChecks e = ⟨.err .INSUFFICIENT_BALANCE, 1, 0⟩) ∧
    (e.sigValid = true → e.validAfter ≤ e.now → e.now ≤ e.validBefore →
       e.amount ≤ e.balance → isNonceUsed e.nonceState = true →
       executePaymentChecks e = ⟨.err .TRANSACTION_FAILED, 1, 1⟩) ∧
    (e.sigValid = true → e.validAfter ≤ e.now → e.now ≤ e.validBefore →
       e.amount ≤ e.balance → isNonceUsed e.nonceState = false →
       executePaymentChecks e = ⟨.proceed, 1, 1⟩) := by
  refine ⟨?_, ?_, ?_, ?_, ?_⟩
  · intro h
    simp [executePaymentChecks, h]
  · intro h hw
    simp [executePaymentChecks, h, hw]
  · intro h h1 h2 h3
    have hw : ¬(e.now < e.validAfter ∨ e.now > e.validBefore) := by omega
    simp [executePaymentChecks, h, hw, h3]
  · intro h h1 h2 h3 hn
    have hw : ¬(e.now < e.validAfter ∨ e.now > e.validBefore) := by omega
    have hb : ¬(e.balance < e.amount) := by omega
    simp [executePaymentChecks, h, hw, hb, hn]
  · intro h h1 h2 h3 hn
    have hw : ¬(e.now < e.validAfter ∨ e.now > e.validBefore) := by omega
    have hb : ¬(e.balance < e.amount) := by omega
    simp [executePaymentChecks, h, hw, hb, hn]

/-- Witness for the amended C4: valid signature, window `[0, 100]`, clock at
200: result `EXPIRED` and zero balance/nonce lookups. -/
theorem executor_check_order_witness :
    executePaymentChecks ⟨true, 200, 0, 100, 0, 0, .ok false⟩ = ⟨.err .EXPIRED, 0, 0⟩ :=
  (executor_check_order ⟨true, 200, 0, 100, 0, 0, .ok false⟩).2.1 rfl (Or.inr (by norm_num))

/-- Claim C10: a thrown `authorizationState` query is swallowed by
`isNonceUsed`, which returns `false`; hence the check phase never yields
`TRANSACTION_FAILED` at the nonce stage when the lookup throws, and with
the other checks passing the executor proceeds to submit the transfer as
if the nonce were unused. -/
theorem isNonceUsed_swallows_throw (e : ExecEnv) (hthrow : e.nonceState = .error ()) :
    isNonceUsed e.nonceState = false ∧
    (executePaymentChecks e).outcome ≠ .err .TRANSACTION_FAILED ∧
    (e.sigValid = true → e.validAfter ≤ e.now → e.now ≤ e.validBefore →
       e.amount ≤ e.balance → executePaymentChecks e = ⟨.proceed, 1, 1⟩) := by
  have hn : isNonceUsed e.nonceState = false := by rw [hthrow]; rfl
  refine ⟨hn, ?_, ?_⟩
  · unfold executePaymentChecks
    split
    · decide
    · split
      · decide
      · split
        · decide
        · rw [hn]
          decide
  · intro h h1 h2 h3
    have hw : ¬(e.now < e.validAfter ∨ e.now > e.validBefore) := by omega
    have hb : ¬(e.balance < e.amount) := by omega
    simp [executePaymentChecks, h, hw, hb, hn]

/-- Witness for C10: all other checks pass and the nonce lookup throws; the
check phase proceeds to submission. -/
theorem isNonceUsed_swallows_throw_witness :
    executePaymentChecks ⟨true, 50, 0, 100, 10, 5, .error ()⟩ = ⟨.proceed, 1, 1⟩ :=
  (isNonceUsed_swallows_throw ⟨true, 50, 0, 100, 10, 5, .error ()⟩ rfl).2.2 rfl
    (by norm_num) (by norm_num) (by norm_num)

/-- Claim C5: `validatePaymentRequest` mutates no stored policy: every
address bound in the store before validation is bound to the identical
policy afterwards (allowed or rejected); the controller leaves every stored
policy unchanged when the settlement fails or the request is rejected; on
success it updates the store exactly by `recordSpending`, which increments
the user's `spentToday` by the challenge amount (after the lazy daily
reset). -/
theorem validate_no_mutation_spend_after_success (req : PaymentRequest) (s : PolicyStore)
    (now : Int) :
    (∀ a p, storeGet s a = some p →
       storeGet ((validatePaymentRequest req s now).2) a = some p) ∧
    (∀ a p, storeGet s a = some p →
       storeGet ((facilitatorExecutePayment req s now false).2) a = some p) ∧
    (∀ reason b, (validatePaymentRequest req s now).1 = .denied reason →
       (facilitatorExecutePayment req s now b).2 = (validatePaymentRequest req s now).2) ∧
    (∀ rem, (validatePaymentRequest req s now).1 = .allowed rem →
       (facilitatorExecutePayment req s now true).2 =
         recordSpending ((validatePaymentRequest req s now).2) req.userAddress
           req.challenge.amount now) ∧
    (∀ s' amt n,
       (storeGet (recordSpending s' req.userAddress amt n)
           (lowerAscii req.userAddress)).map UserPolicy.spentToday =
         some ((if n - ((getUserPolicy s' req.userAddress n).1).lastResetTimestamp >
                  ONE_DAY_MS
                then 0 else ((getUserPolicy s' req.userAddress n).1).spentToday) + amt)) := by
  refine ⟨validatePaymentRequest_preserves req s now, ?_, ?_, ?_, ?_⟩
  · intro a p h
    rw [facilitatorExecutePayment_fail_store]
    exact validatePaymentRequest_preserves req s now a p h
  · intro reason b hm
    unfold facilitatorExecutePayment
    dsimp only
    rw [hm]
  · intro rem hm
    unfold facilitatorExecutePayment
    dsimp only
    rw [hm]
    rfl
  · intro s' amt n
    unfold recordSpending
    dsimp only
    rw [storeGet_storeSet_self]
    by_cases hc : n - ((getUserPolicy s' req.userAddress n).1).lastResetTimestamp > ONE_DAY_MS
    · simp [hc]
    · simp [hc]

/-- Witness for C5: on a fresh store the request is allowed and a successful
settlement updates the store exactly through `recordSpending`. -/
theorem validate_no_mutation_spend_after_success_witness :
    (facilitatorExecutePayment ⟨"0xA", ⟨"0xB", none, 5⟩, ⟨"0xA", "0xB", 5⟩⟩ [] 0 true).2 =
      recordSpending
        ((validatePaymentRequest ⟨"0xA", ⟨"0xB", none, 5⟩, ⟨"0xA", "0xB", 5⟩⟩ [] 0).2)
        "0xA" 5 0 :=
  (validate_no_mutation_spend_after_success
      ⟨"0xA", ⟨"0xB", none, 5⟩, ⟨"0xA", "0xB", 5⟩⟩ [] 0).2.2.2.1 499999995 (by decide)

/-- Claim C7: `getRemainingDailyAllowance` returns the full
`dailySpendingLimit` when more than 24 hours have passed since
`lastResetTimestamp`, regardless of `spentToday`, and otherwise
`dailySpendingLimit - spentToday` floored at zero. -/
theorem getRemainingDailyAllowance_spec (s : PolicyStore) (userAddress : String)
    (now : Int) :
    (getRemainingDailyAllowance s userAddress now).1 =
      if now - ((getUserPolicy s userAddress now).1).lastResetTimestamp > ONE_DAY_MS
      then ((getUserPolicy s userAddress now).1).dailySpendingLimit
      else max 0 (((getUserPolicy s userAddress now).1).dailySpendingLimit -
        ((getUserPolicy s userAddress now).1).spentToday) := by
  unfold getRemainingDailyAllowance
  dsimp only
  by_cases hc : now - ((getUserPolicy s userAddress now).1).lastResetTimestamp > ONE_DAY_MS
  · simp [hc]
  · rw [if_neg hc, if_neg hc]
    by_cases h2 : ((getUserPolicy s userAddress now).1).dailySpendingLimit -
        ((getUserPolicy s userAddress now).1).spentToday > 0
    · rw [if_pos h2, max_eq_right (le_of_lt h2)]
    · rw [if_neg h2, max_eq_left (by omega)]

/-- Claim C8: with `autoPayEnabled` set, `isMerchantAuthorized` accepts
every merchant address and domain, so the validator's merchant-authorization
rule can never reject; and the lazily created default policy has
`autoPayEnabled = true`, so an address that never updated its policy
authorizes every merchant by default. -/
theorem autoPay_authorizes_any_merchant (s : PolicyStore) (userAddress : String)
    (now : Int) :
    (∀ merchantAddress merchantDomain,
       ((getUserPolicy s userAddress now).1).autoPayEnabled = true →
       (isMerchantAuthorized s userAddress merchantAddress merchantDomain now).1 = true) ∧
    (storeGet s (lowerAscii userAddress) = none →
       ((getUserPolicy s userAddress now).1).autoPayEnabled = true) ∧
    (∀ req : PaymentRequest, req.userAddress = userAddress →
       ((getUserPolicy s userAddress now).1).autoPayEnabled = true →
       (validatePaymentRequest req s now).1 ≠ .denied "Merchant not authorized by user") := by
  have hauth : ∀ merchantAddress merchantDomain,
      ((getUserPolicy s userAddress now).1).autoPayEnabled = true →
      (isMerchantAuthorized s userAddress merchantAddress merchantDomain now).1 = true := by
    intro m d h
    unfold isMerchantAuthorized
    dsimp only
    split
    · rfl
    · split
      · rfl
      · exact h
  refine ⟨hauth, ?_, ?_⟩
  · intro hnone
    simp [getUserPolicy, hnone, defaultPolicy]
  · intro req hru h
    subst hru
    have h1 := hauth req.challenge.merchantAddress req.challenge.merchantDomain h
    unfold validatePaymentRequest
    dsimp only
    rw [h1]
    rw [if_neg (by simp)]
    split
    · simp
    · split
      · simp
      · split
        · simp
        · split
          · simp
          · split
            · simp
            · simp

/-- Witness for C8: on the empty store, the never-configured address `0xA`
authorizes an arbitrary merchant, its lazily created policy has auto-pay
on, and the merchant-authorization rule does not reject its request. -/
theorem autoPay_authorizes_any_merchant_witness :
    (isMerchantAuthorized [] "0xA" "0xDEADBEEF" (some "evil.example") 0).1 = true ∧
    ((getUserPolicy [] "0xA" 0).1).autoPayEnabled = true ∧
    (validatePaymentRequest ⟨"0xA", ⟨"0xB", none, 5⟩, ⟨"0xA", "0xB", 5⟩⟩ [] 0).1 ≠
      PolicyCheckResult.denied "Merchant not authorized by user" :=
  ⟨(autoPay_authorizes_any_merchant [] "0xA" 0).1 "0xDEADBEEF" (some "evil.example")
      (by decide),
   (autoPay_authorizes_any_merchant [] "0xA" 0).2.1 (by decide),
   (autoPay_authorizes_any_merchant [] "0xA" 0).2.2
      ⟨"0xA", ⟨"0xB", none, 5⟩, ⟨"0xA", "0xB", 5⟩⟩ rfl (by decide)⟩
